import Mathlib

set_option maxRecDepth 100000

/-!
Verification of the incremental SHA hashing shim
(`sdk/keyvault/azure-security-keyvault-common/src/sha.cpp`).

The shim forwards `append`/`finalize` calls to a platform backend
(OpenSSL `EVP_*` on POSIX, BCrypt on Windows).  The backends themselves are
black-box collaborators outside the repository source; their documented
semantics (an accumulating SHA-256/384/512 digest computation) are modelled
here from the specification, while the shim's own control flow (status
checks, buffer trimming, resource handling) is translated from `sha.cpp`.
-/

namespace AzureKeyVaultSha

/-! ### SHA-2 word arithmetic (model of the backend algorithm) -/

/-- Modulus for 32-bit machine words. -/
def w32 : Nat := 2 ^ 32

/-- Modulus for 64-bit machine words. -/
def w64 : Nat := 2 ^ 64

/-- Rotate a 32-bit word right by `n` bit positions. -/
def rotr32 (x n : Nat) : Nat := ((x >>> n) ||| (x <<< (32 - n))) % w32

/-- Rotate a 64-bit word right by `n` bit positions. -/
def rotr64 (x n : Nat) : Nat := ((x >>> n) ||| (x <<< (64 - n))) % w64

/-- Bitwise complement of a 32-bit word. -/
def not32 (x : Nat) : Nat := x ^^^ (w32 - 1)

/-- Bitwise complement of a 64-bit word. -/
def not64 (x : Nat) : Nat := x ^^^ (w64 - 1)

/-- Big-endian serialization of a number into `k` bytes. -/
def natToBytesBE : Nat → Nat → List Nat
  | 0, _ => []
  | k + 1, n => natToBytesBE k (n / 256) ++ [n % 256]

/-- Big-endian word value of a byte list. -/
def beWord (bs : List Nat) : Nat := bs.foldl (fun a b => a * 256 + b) 0

/-- Split a list into `k` consecutive chunks of `n` elements each. -/
def takeChunks (n : Nat) : Nat → List Nat → List (List Nat)
  | 0, _ => []
  | k + 1, xs => xs.take n :: takeChunks n k (xs.drop n)

/-- Merkle-Damgard padding: append `0x80`, zeros, and the bit length as a
`lenBytes`-byte big-endian field, to a multiple of `blockSize` bytes. -/
def padMessage (blockSize lenBytes : Nat) (msg : List Nat) : List Nat :=
  msg ++ [128]
    ++ List.replicate ((blockSize - (msg.length + 1 + lenBytes) % blockSize) % blockSize) 0
    ++ natToBytesBE lenBytes (8 * msg.length)

/-- Extend a 16-word message schedule by `n` further words. -/
def extendSchedule (wordMod : Nat) (s0 s1 : Nat → Nat) : Nat → List Nat → List Nat
  | 0, w => w
  | n + 1, w =>
    let w := extendSchedule wordMod s0 s1 n w
    let t := w.length
    w ++ [(s1 (w.getD (t - 2) 0) + w.getD (t - 7) 0 + s0 (w.getD (t - 15) 0)
            + w.getD (t - 16) 0) % wordMod]

/-- The eight working registers of a SHA-2 compression state. -/
structure Hash8 where
  a : Nat
  b : Nat
  c : Nat
  d : Nat
  e : Nat
  f : Nat
  g : Nat
  h : Nat
deriving Repr, DecidableEq

/-! ### SHA-256 -/

def sig0x256 (x : Nat) : Nat := rotr32 x 7 ^^^ rotr32 x 18 ^^^ (x >>> 3)

def sig1x256 (x : Nat) : Nat := rotr32 x 17 ^^^ rotr32 x 19 ^^^ (x >>> 10)

def bigSig0x256 (x : Nat) : Nat := rotr32 x 2 ^^^ rotr32 x 13 ^^^ rotr32 x 22

def bigSig1x256 (x : Nat) : Nat := rotr32 x 6 ^^^ rotr32 x 11 ^^^ rotr32 x 25

def K256 : List Nat := [
  1116352408, 1899447441, 3049323471, 3921009573, 961987163,
  1508970993, 2453635748, 2870763221, 3624381080, 310598401,
  607225278, 1426881987, 1925078388, 2162078206, 2614888103,
  3248222580, 3835390401, 4022224774, 264347078, 604807628,
  770255983, 1249150122, 1555081692, 1996064986, 2554220882,
  2821834349, 2952996808, 3210313671, 3336571891, 3584528711,
  113926993, 338241895, 666307205, 773529912, 1294757372,
  1396182291, 1695183700, 1986661051, 2177026350, 2456956037,
  2730485921, 2820302411, 3259730800, 3345764771, 3516065817,
  3600352804, 4094571909, 275423344, 430227734, 506948616,
  659060556, 883997877, 958139571, 1322822218, 1537002063,
  1747873779, 1955562222, 2024104815, 2227730452, 2361852424,
  2428436474, 2756734187, 3204031479, 3329325298]

/-- One SHA-256 compression round with round constant `k` and schedule word `w`. -/
def round256 (st : Hash8) (k w : Nat) : Hash8 :=
  let t1 := (st.h + bigSig1x256 st.e + ((st.e &&& st.f) ^^^ (not32 st.e &&& st.g)) + k + w) % w32
  let t2 := (bigSig0x256 st.a
      + ((st.a &&& st.b) ^^^ (st.a &&& st.c) ^^^ (st.b &&& st.c))) % w32
  ⟨(t1 + t2) % w32, st.a, st.b, st.c, (st.d + t1) % w32, st.e, st.f, st.g⟩

/-- SHA-256 compression of one 64-byte block. -/
def compress256 (st : Hash8) (block : List Nat) : Hash8 :=
  let w := extendSchedule w32 sig0x256 sig1x256 48 ((takeChunks 4 16 block).map beWord)
  let r := (K256.zip w).foldl (fun s p => round256 s p.1 p.2) st
  ⟨(st.a + r.a) % w32, (st.b + r.b) % w32, (st.c + r.c) % w32, (st.d + r.d) % w32,
    (st.e + r.e) % w32, (st.f + r.f) % w32, (st.g + r.g) % w32, (st.h + r.h) % w32⟩

def sha256Init : Hash8 :=
  ⟨1779033703, 3144134277, 1013904242, 2773480762,
    1359893119, 2600822924, 528734635, 1541459225⟩

/-- SHA-256 register state after padding and compressing a whole message. -/
def hashWords256 (msg : List Nat) : Hash8 :=
  let p := padMessage 64 8 msg
  (takeChunks 64 (p.length / 64) p).foldl compress256 sha256Init

/-- SHA-256 digest of a byte list. -/
def sha256 (msg : List Nat) : List Nat :=
  let st := hashWords256 msg
  natToBytesBE 4 st.a ++ natToBytesBE 4 st.b ++ natToBytesBE 4 st.c ++ natToBytesBE 4 st.d
    ++ natToBytesBE 4 st.e ++ natToBytesBE 4 st.f ++ natToBytesBE 4 st.g ++ natToBytesBE 4 st.h

/-! ### SHA-512 and SHA-384 -/

def sig0x512 (x : Nat) : Nat := rotr64 x 1 ^^^ rotr64 x 8 ^^^ (x >>> 7)

def sig1x512 (x : Nat) : Nat := rotr64 x 19 ^^^ rotr64 x 61 ^^^ (x >>> 6)

def bigSig0x512 (x : Nat) : Nat := rotr64 x 28 ^^^ rotr64 x 34 ^^^ rotr64 x 39

def bigSig1x512 (x : Nat) : Nat := rotr64 x 14 ^^^ rotr64 x 18 ^^^ rotr64 x 41

def K512 : List Nat := [
  4794697086780616226, 8158064640168781261, 13096744586834688815,
  16840607885511220156, 4131703408338449720, 6480981068601479193,
  10538285296894168987, 12329834152419229976, 15566598209576043074,
  1334009975649890238, 2608012711638119052, 6128411473006802146,
  8268148722764581231, 9286055187155687089, 11230858885718282805,
  13951009754708518548, 16472876342353939154, 17275323862435702243,
  1135362057144423861, 2597628984639134821, 3308224258029322869,
  5365058923640841347, 6679025012923562964, 8573033837759648693,
  10970295158949994411, 12119686244451234320, 12683024718118986047,
  13788192230050041572, 14330467153632333762, 15395433587784984357,
  489312712824947311, 1452737877330783856, 2861767655752347644,
  3322285676063803686, 5560940570517711597, 5996557281743188959,
  7280758554555802590, 8532644243296465576, 9350256976987008742,
  10552545826968843579, 11727347734174303076, 12113106623233404929,
  14000437183269869457, 14369950271660146224, 15101387698204529176,
  15463397548674623760, 17586052441742319658, 1182934255886127544,
  1847814050463011016, 2177327727835720531, 2830643537854262169,
  3796741975233480872, 4115178125766777443, 5681478168544905931,
  6601373596472566643, 7507060721942968483, 8399075790359081724,
  8693463985226723168, 9568029438360202098, 10144078919501101548,
  10430055236837252648, 11840083180663258601, 13761210420658862357,
  14299343276471374635, 14566680578165727644, 15097957966210449927,
  16922976911328602910, 17689382322260857208, 500013540394364858,
  748580250866718886, 1242879168328830382, 1977374033974150939,
  2944078676154940804, 3659926193048069267, 4368137639120453308,
  4836135668995329356, 5532061633213252278, 6448918945643986474,
  6902733635092675308, 7801388544844847127]

/-- One SHA-512 compression round with round constant `k` and schedule word `w`. -/
def round512 (st : Hash8) (k w : Nat) : Hash8 :=
  let t1 := (st.h + bigSig1x512 st.e + ((st.e &&& st.f) ^^^ (not64 st.e &&& st.g)) + k + w) % w64
  let t2 := (bigSig0x512 st.a
      + ((st.a &&& st.b) ^^^ (st.a &&& st.c) ^^^ (st.b &&& st.c))) % w64
  ⟨(t1 + t2) % w64, st.a, st.b, st.c, (st.d + t1) % w64, st.e, st.f, st.g⟩

/-- SHA-512 compression of one 128-byte block. -/
def compress512 (st : Hash8) (block : List Nat) : Hash8 :=
  let w := extendSchedule w64 sig0x512 sig1x512 64 ((takeChunks 8 16 block).map beWord)
  let r := (K512.zip w).foldl (fun s p => round512 s p.1 p.2) st
  ⟨(st.a + r.a) % w64, (st.b + r.b) % w64, (st.c + r.c) % w64, (st.d + r.d) % w64,
    (st.e + r.e) % w64, (st.f + r.f) % w64, (st.g + r.g) % w64, (st.h + r.h) % w64⟩

def sha512Init : Hash8 :=
  ⟨7640891576956012808, 13503953896175478587, 4354685564936845355, 11912009170470909681,
    5840696475078001361, 11170449401992604703, 2270897969802886507, 6620516959819538809⟩

def sha384Init : Hash8 :=
  ⟨14680500436340154072, 7105036623409894663, 10473403895298186519, 1526699215303891257,
    7436329637833083697, 10282925794625328401, 15784041429090275239, 5167115440072839076⟩

/-- SHA-512-family register state after padding and compressing a whole message. -/
def hashWords512 (init : Hash8) (msg : List Nat) : Hash8 :=
  let p := padMessage 128 16 msg
  (takeChunks 128 (p.length / 128) p).foldl compress512 init

/-- SHA-512 digest of a byte list. -/
def sha512 (msg : List Nat) : List Nat :=
  let st := hashWords512 sha512Init msg
  natToBytesBE 8 st.a ++ natToBytesBE 8 st.b ++ natToBytesBE 8 st.c ++ natToBytesBE 8 st.d
    ++ natToBytesBE 8 st.e ++ natToBytesBE 8 st.f ++ natToBytesBE 8 st.g ++ natToBytesBE 8 st.h

/-- SHA-384 digest of a byte list: SHA-512 with its own initial state, truncated
to the first six 64-bit words. -/
def sha384 (msg : List Nat) : List Nat :=
  let st := hashWords512 sha384Init msg
  natToBytesBE 8 st.a ++ natToBytesBE 8 st.b ++ natToBytesBE 8 st.c ++ natToBytesBE 8 st.d
    ++ natToBytesBE 8 st.e ++ natToBytesBE 8 st.f

/-- Algorithm selector, as in `sha.cpp` (`enum class SHASize`). -/
inductive SHASize where
  | SHA256
  | SHA384
  | SHA512
deriving Repr, DecidableEq

/-- Digest of a whole message under the selected algorithm. -/
def shaDigest : SHASize → List Nat → List Nat
  | SHASize.SHA256, m => sha256 m
  | SHASize.SHA384, m => sha384 m
  | SHASize.SHA512, m => sha512 m

/-- Algorithm-specific digest length in bytes. -/
def digestLength : SHASize → Nat
  | SHASize.SHA256 => 32
  | SHASize.SHA384 => 48
  | SHASize.SHA512 => 64

/-! ### OpenSSL EVP backend interface and the POSIX shim

The shim `SHAWithOpenSSL` (sha.cpp lines 35-96) is translated over an
abstract backend interface that yields a status for each primitive call, so
that the shim's status checks are exactly those of the source; the concrete
backend instance below models the EVP digest context itself. -/

/-- Capacity of the scratch buffer `finalHash` in `OnFinal` (sha.cpp line 43),
the largest digest size the library supports. -/
def EVP_MAX_MD_SIZE : Nat := 64

/-- Backend interface as the shim uses it: `update` consumes a chunk and
returns a status and the mutated context; `final` returns a status, the
filled scratch buffer, and the reported digest size. -/
structure EVPBackend (σ : Type) where
  update : σ → List Nat → Int × σ
  final : σ → Int × List Nat × Nat

/-- Modelled from the spec: the third-party crypto library's message-digest
context (`EVP_MD_CTX`, black box outside this repository).  Its accumulated
internal digest state is the algorithm selected at init together with the
byte sequence fed so far. -/
structure EVPContext where
  alg : SHASize
  acc : List Nat
deriving Repr, DecidableEq

/-- Modelled from the spec: the context fresh from `EVP_MD_CTX_new` and
`EVP_DigestInit_ex` for the selected algorithm has accumulated nothing. -/
def EVP_DigestInit (alg : SHASize) : EVPContext := ⟨alg, []⟩

/-- Modelled from the spec: the library's digest primitives on the successful
path.  `update` appends the chunk to the accumulated message and reports
status 1; `final` reports status 1, fills the scratch buffer with the digest
of the accumulated message (padded to the buffer's capacity), and reports the
algorithm-specific digest size. -/
def evpBackend : EVPBackend EVPContext where
  update := fun ctx data => (1, ⟨ctx.alg, ctx.acc ++ data⟩)
  final := fun ctx =>
    let d := shaDigest ctx.alg ctx.acc
    (1, d ++ List.replicate (EVP_MAX_MD_SIZE - d.length) 0, digestLength ctx.alg)

/-- Translation of `SHAWithOpenSSL::OnAppend` (sha.cpp lines 51-57): forward
the chunk to `EVP_DigestUpdate`; when the returned status differs from 1,
throw a runtime error, else return normally with the mutated context. -/
def SHAWithOpenSSL.OnAppend {σ : Type} (B : EVPBackend σ) (ctx : σ) (data : List Nat) :
    Except String σ :=
  let r := B.update ctx data
  if 1 ≠ r.1 then Except.error "Crypto error while updating SHA256."
  else Except.ok r.2

/-- Translation of `SHAWithOpenSSL::OnFinal` (sha.cpp lines 39-49): first
`OnAppend` the final chunk, then call `EVP_DigestFinal` into the
`EVP_MAX_MD_SIZE` scratch buffer; on status 1 return the first `size` bytes
of the buffer, else throw. -/
def SHAWithOpenSSL.OnFinal {σ : Type} (B : EVPBackend σ) (ctx : σ) (data : List Nat) :
    Except String (List Nat) :=
  match SHAWithOpenSSL.OnAppend B ctx data with
  | Except.error e => Except.error e
  | Except.ok ctx1 =>
    let r := B.final ctx1
    if 1 ≠ r.1 then Except.error "Crypto error while computing SHA256."
    else Except.ok (r.2.1.take r.2.2)

/-- The shim's append on the modelled EVP backend. -/
def shaAppend (ctx : EVPContext) (data : List Nat) : Except String EVPContext :=
  SHAWithOpenSSL.OnAppend evpBackend ctx data

/-- The shim's finalize on the modelled EVP backend. -/
def shaFinal (ctx : EVPContext) (data : List Nat) : Except String (List Nat) :=
  SHAWithOpenSSL.OnFinal evpBackend ctx data

/-- A whole sequence of append calls, stopping at the first error. -/
def runAppends (ctx : EVPContext) : List (List Nat) → Except String EVPContext
  | [] => Except.ok ctx
  | c :: cs =>
    match shaAppend ctx c with
    | Except.error e => Except.error e
    | Except.ok ctx1 => runAppends ctx1 cs

/-- Digest computed from a starting context by a sequence of append calls
followed by finalize with a final chunk. -/
def hashVia (ctx : EVPContext) (chunks : List (List Nat)) (fin : List Nat) :
    Except String (List Nat) :=
  match runAppends ctx chunks with
  | Except.error e => Except.error e
  | Except.ok ctx1 => shaFinal ctx1 fin

/-! ### Windows BCrypt shim

`SHAWithBCrypt` (sha.cpp lines 164-221) is translated over an abstract
backend interface producing an `NTSTATUS` for each call, mirroring the
source's `BCRYPT_SUCCESS` checks. -/

/-- `BCRYPT_SUCCESS(status)` is `((NTSTATUS)(status) >= 0)`. -/
def BCRYPT_SUCCESS (status : Int) : Bool := decide (0 ≤ status)

/-- The provider-query helper (sha.cpp lines 119-162) after a successful
construction: the opened algorithm-provider handle and the two queried
properties, `BCRYPT_OBJECT_LENGTH` and `BCRYPT_HASH_LENGTH`. -/
structure AlgorithmProviderInstance where
  Handle : Nat
  ContextSize : Nat
  HashLength : Nat

/-- Backend interface as the BCrypt shim uses it: `hashData` consumes a chunk
and yields a status and the mutated hash-object state; `finishHash` takes the
output buffer's size and yields a status and the byte written at each offset
of that buffer. -/
structure BCryptBackend (σ : Type) where
  hashData : σ → List Nat → Int × σ
  finishHash : σ → Nat → Int × (Nat → Nat)

/-- The fields of `SHAWithBCrypt`: the scratch buffer's size, the hash-object
handle's state, and the digest length queried at construction. -/
structure SHAWithBCryptState (σ : Type) where
  m_bufferSize : Nat
  m_hashHandle : σ
  m_hashLength : Nat

/-- Translation of the `SHAWithBCrypt` constructor's successful path (sha.cpp
lines 199-218): size the buffer to the provider's `ContextSize`, store the
provider's `HashLength` into `m_hashLength`, and bind the created hash
object. -/
def SHAWithBCrypt.construct {σ : Type} (prov : AlgorithmProviderInstance) (handle : σ) :
    SHAWithBCryptState σ :=
  { m_bufferSize := prov.ContextSize, m_hashHandle := handle, m_hashLength := prov.HashLength }

/-- Translation of `SHAWithBCrypt::OnAppend` (sha.cpp lines 185-196): forward
the chunk to `BCryptHashData`; throw unless the status succeeds. -/
def SHAWithBCrypt.OnAppend {σ : Type} (B : BCryptBackend σ) (s : SHAWithBCryptState σ)
    (data : List Nat) : Except String (SHAWithBCryptState σ) :=
  let r := B.hashData s.m_hashHandle data
  if !BCRYPT_SUCCESS r.1 then Except.error "BCryptHashData failed"
  else Except.ok { s with m_hashHandle := r.2 }

/-- Translation of `SHAWithBCrypt::OnFinal` (sha.cpp lines 170-183): first
`OnAppend` the final chunk, then resize the output to `m_hashLength` and let
`BCryptFinishHash` fill it in place; throw unless the status succeeds, else
return the filled vector. -/
def SHAWithBCrypt.OnFinal {σ : Type} (B : BCryptBackend σ) (s : SHAWithBCryptState σ)
    (data : List Nat) : Except String (List Nat) :=
  match SHAWithBCrypt.OnAppend B s data with
  | Except.error e => Except.error e
  | Except.ok s1 =>
    let hash := List.replicate s1.m_hashLength 0
    let r := B.finishHash s1.m_hashHandle hash.length
    if !BCRYPT_SUCCESS r.1 then Except.error "BCryptFinishHash failed"
    else Except.ok ((List.range hash.length).map r.2)

/-! ### Constructor resource paths

The constructors acquire backend resources and throw on failure.  Per C++
semantics a throwing constructor does not run the destructor of its own
partially constructed object (only fully constructed locals and members are
unwound), so a raw handle acquired before the throwing statement is released
only if the constructor itself frees it before throwing.  The models below
count the resources an execution path leaves acquired and unreleased. -/

/-- Counts of currently live (acquired, unreleased) and already freed backend
resources. -/
structure ResourceState where
  live : Nat
  freed : Nat
deriving Repr, DecidableEq

/-- A backend resource is acquired (a context created, a provider opened). -/
def acquireResource (s : ResourceState) : ResourceState :=
  { s with live := s.live + 1 }

/-- A backend resource is released. -/
def releaseResource (s : ResourceState) : ResourceState :=
  { live := s.live - 1, freed := s.freed + 1 }

/-- Translation of the `SHAWithOpenSSL` constructor (sha.cpp lines 60-93) as
a resource trace; each flag is the success of the corresponding backend call.
`EVP_MD_CTX_new` failure throws with nothing acquired; `EVP_DigestInit_ex`
failure throws after the context was acquired, and the source frees nothing
before throwing. -/
def SHAWithOpenSSL.constructTrace (ctxNewOk initOk : Bool) (s : ResourceState) :
    ResourceState × Except String Unit :=
  if !ctxNewOk then (s, Except.error "Crypto error while creating EVP context.")
  else
    let s := acquireResource s
    if !initOk then (s, Except.error "Crypto error while init SHA256.")
    else (s, Except.ok ())

/-- `~SHAWithOpenSSL` (sha.cpp line 95): free the context. -/
def SHAWithOpenSSL.destructTrace (s : ResourceState) : ResourceState :=
  releaseResource s

/-- Whole object lifetime of a `SHAWithOpenSSL` under C++ semantics: the
destructor runs only when the constructor completed; a throwing constructor
does not trigger the destructor of the partially constructed object. -/
def SHAWithOpenSSL.lifecycle (ctxNewOk initOk : Bool) : ResourceState :=
  let r := SHAWithOpenSSL.constructTrace ctxNewOk initOk ⟨0, 0⟩
  match r.2 with
  | Except.ok _ => SHAWithOpenSSL.destructTrace r.1
  | Except.error _ => r.1

/-- Translation of the `AlgorithmProviderInstance` constructor (sha.cpp lines
125-159) as a resource trace: open the provider (acquiring its handle), then
query the object length and the hash length; either failed query throws, and
the source closes nothing before throwing. -/
def AlgorithmProviderInstance.constructTrace (openOk objLenOk hashLenOk : Bool)
    (s : ResourceState) : ResourceState × Except String Unit :=
  if !openOk then (s, Except.error "BCryptOpenAlgorithmProvider failed")
  else
    let s := acquireResource s
    if !objLenOk then (s, Except.error "BCryptGetProperty failed")
    else if !hashLenOk then (s, Except.error "BCryptGetProperty failed")
    else (s, Except.ok ())

/-- `~AlgorithmProviderInstance` (sha.cpp line 161): close the provider. -/
def AlgorithmProviderInstance.destructTrace (s : ResourceState) : ResourceState :=
  releaseResource s

/-- Whole object lifetime of an `AlgorithmProviderInstance` under C++
semantics, as for `SHAWithOpenSSL.lifecycle`. -/
def AlgorithmProviderInstance.lifecycle (openOk objLenOk hashLenOk : Bool) : ResourceState :=
  let r := AlgorithmProviderInstance.constructTrace openOk objLenOk hashLenOk ⟨0, 0⟩
  match r.2 with
  | Except.ok _ => AlgorithmProviderInstance.destructTrace r.1
  | Except.error _ => r.1

/-! ### Helper lemmas -/

theorem natToBytesBE_length (k n : Nat) : (natToBytesBE k n).length = k := by
  induction k generalizing n with
  | zero => rfl
  | succ k ih => simp [natToBytesBE, ih]

theorem sha256_length (m : List Nat) : (sha256 m).length = 32 := by
  simp [sha256, natToBytesBE_length]

theorem sha384_length (m : List Nat) : (sha384 m).length = 48 := by
  simp [sha384, natToBytesBE_length]

theorem sha512_length (m : List Nat) : (sha512 m).length = 64 := by
  simp [sha512, natToBytesBE_length]

theorem shaDigest_length (alg : SHASize) (m : List Nat) :
    (shaDigest alg m).length = digestLength alg := by
  cases alg <;>
    simp [shaDigest, digestLength, sha256_length, sha384_length, sha512_length]

theorem shaAppend_eq_ok (ctx : EVPContext) (d : List Nat) :
    shaAppend ctx d = Except.ok ⟨ctx.alg, ctx.acc ++ d⟩ := by
  simp [shaAppend, SHAWithOpenSSL.OnAppend, evpBackend]

theorem shaFinal_eq_ok (ctx : EVPContext) (d : List Nat) :
    shaFinal ctx d = Except.ok (shaDigest ctx.alg (ctx.acc ++ d)) := by
  have h := shaDigest_length ctx.alg (ctx.acc ++ d)
  simp only [shaFinal, SHAWithOpenSSL.OnFinal, SHAWithOpenSSL.OnAppend, evpBackend,
    ne_eq, not_true_eq_false, if_false, reduceIte]
  rw [← h, List.take_left]

theorem shaFinal_fresh (alg : SHASize) (d : List Nat) :
    shaFinal (EVP_DigestInit alg) d = Except.ok (shaDigest alg d) := by
  rw [shaFinal_eq_ok]
  simp [EVP_DigestInit]

theorem onAppend_ok_of_status {σ : Type} (B : EVPBackend σ) (ctx : σ) (d : List Nat)
    (h : (B.update ctx d).1 = 1) :
    SHAWithOpenSSL.OnAppend B ctx d = Except.ok (B.update ctx d).2 := by
  unfold SHAWithOpenSSL.OnAppend
  rw [if_neg (by simp [h])]

theorem onAppend_error_of_status {σ : Type} (B : EVPBackend σ) (ctx : σ) (d : List Nat)
    (h : (B.update ctx d).1 ≠ 1) :
    SHAWithOpenSSL.OnAppend B ctx d = Except.error "Crypto error while updating SHA256." := by
  unfold SHAWithOpenSSL.OnAppend
  rw [if_pos (fun he => h he.symm)]

theorem onFinal_error_of_update {σ : Type} (B : EVPBackend σ) (ctx : σ) (d : List Nat)
    (h : (B.update ctx d).1 ≠ 1) :
    SHAWithOpenSSL.OnFinal B ctx d = Except.error "Crypto error while updating SHA256." := by
  unfold SHAWithOpenSSL.OnFinal
  rw [onAppend_error_of_status B ctx d h]

theorem onFinal_error_of_final {σ : Type} (B : EVPBackend σ) (ctx : σ) (d : List Nat)
    (h1 : (B.update ctx d).1 = 1) (h2 : (B.final (B.update ctx d).2).1 ≠ 1) :
    SHAWithOpenSSL.OnFinal B ctx d = Except.error "Crypto error while computing SHA256." := by
  unfold SHAWithOpenSSL.OnFinal
  rw [onAppend_ok_of_status B ctx d h1]
  exact if_pos (fun he => h2 he.symm)

theorem onFinal_ok_of_status {σ : Type} (B : EVPBackend σ) (ctx : σ) (d : List Nat)
    (h1 : (B.update ctx d).1 = 1) (h2 : (B.final (B.update ctx d).2).1 = 1) :
    SHAWithOpenSSL.OnFinal B ctx d =
      Except.ok ((B.final (B.update ctx d).2).2.1.take (B.final (B.update ctx d).2).2.2) := by
  unfold SHAWithOpenSSL.OnFinal
  rw [onAppend_ok_of_status B ctx d h1]
  exact if_neg (by simp [h2])

/-! ### Claims -/

/-- Claim C1: for every algorithm variant and byte sequences `s1`, `s2`,
appending the concatenation `s1 ++ s2` once and finalizing with an empty
final chunk yields the same digest as appending `s1`, then `s2`, then
finalizing with an empty final chunk on a fresh instance of the same
variant: chunking is transparent. -/
theorem sha_chunking_transparent (alg : SHASize) (s1 s2 : List Nat) :
    (shaAppend (EVP_DigestInit alg) (s1 ++ s2) >>= fun c => shaFinal c []) =
      (shaAppend (EVP_DigestInit alg) s1 >>= fun c =>
        shaAppend c s2 >>= fun c2 => shaFinal c2 []) := by
  simp [shaAppend_eq_ok, shaFinal_eq_ok, EVP_DigestInit, Bind.bind, Except.bind]

/-- Claim C2: for every instance state and every byte sequence `d`,
finalizing with final chunk `d` returns the same digest as first appending
`d` and then finalizing with an empty final chunk: the optional final chunk
is incorporated exactly as one more append before the completion step. -/
theorem sha_finalize_incorporates_final_chunk (ctx : EVPContext) (d : List Nat) :
    shaFinal ctx d = (shaAppend ctx d >>= fun c => shaFinal c []) := by
  simp [shaAppend_eq_ok, shaFinal_eq_ok, Bind.bind, Except.bind]

/-- Claim C3: every successful finalize returns a digest whose length is the
algorithm-specific digest length — 32 bytes for SHA-256, 48 for SHA-384,
64 for SHA-512 — never the scratch buffer's capacity and never zero. -/
theorem sha_digest_length_spec (ctx : EVPContext) (d out : List Nat)
    (h : shaFinal ctx d = Except.ok out) :
    out.length = digestLength ctx.alg ∧
    (ctx.alg = SHASize.SHA256 → out.length = 32) ∧
    (ctx.alg = SHASize.SHA384 → out.length = 48) ∧
    (ctx.alg = SHASize.SHA512 → out.length = 64) ∧
    out.length ≠ 0 := by
  rw [shaFinal_eq_ok] at h
  injection h with h
  subst h
  have hl := shaDigest_length ctx.alg (ctx.acc ++ d)
  refine ⟨hl, ?_, ?_, ?_, ?_⟩
  · intro ha; rw [hl, ha]; rfl
  · intro ha; rw [hl, ha]; rfl
  · intro ha; rw [hl, ha]; rfl
  · rw [hl]; cases ctx.alg <;> decide

/-- Witness for `sha_digest_length_spec` at the fresh SHA-256 instance with
empty final chunk. -/
theorem sha_digest_length_spec_witness :
    (shaDigest SHASize.SHA256 []).length = digestLength SHASize.SHA256 ∧
    (SHASize.SHA256 = SHASize.SHA256 → (shaDigest SHASize.SHA256 []).length = 32) ∧
    (SHASize.SHA256 = SHASize.SHA384 → (shaDigest SHASize.SHA256 []).length = 48) ∧
    (SHASize.SHA256 = SHASize.SHA512 → (shaDigest SHASize.SHA256 []).length = 64) ∧
    (shaDigest SHASize.SHA256 []).length ≠ 0 :=
  sha_digest_length_spec (EVP_DigestInit SHASize.SHA256) [] (shaDigest SHASize.SHA256 [])
    (shaFinal_fresh SHASize.SHA256 [])

/-- Claim C4: finalizing a freshly constructed instance with an empty final
chunk and no prior appends yields the standard digest of the empty input for
each variant; in particular SHA-256 yields
`e3b0c44298fc1c149afbf4c8996fb92427ae41e4649b934ca495991b7852b855`. -/
theorem sha_empty_input_vectors :
    shaFinal (EVP_DigestInit SHASize.SHA256) [] = Except.ok [
      0xe3, 0xb0, 0xc4, 0x42, 0x98, 0xfc, 0x1c, 0x14, 0x9a, 0xfb, 0xf4, 0xc8,
      0x99, 0x6f, 0xb9, 0x24, 0x27, 0xae, 0x41, 0xe4, 0x64, 0x9b, 0x93, 0x4c,
      0xa4, 0x95, 0x99, 0x1b, 0x78, 0x52, 0xb8, 0x55] ∧
    shaFinal (EVP_DigestInit SHASize.SHA384) [] = Except.ok [
      0x38, 0xb0, 0x60, 0xa7, 0x51, 0xac, 0x96, 0x38, 0x4c, 0xd9, 0x32, 0x7e,
      0xb1, 0xb1, 0xe3, 0x6a, 0x21, 0xfd, 0xb7, 0x11, 0x14, 0xbe, 0x07, 0x43,
      0x4c, 0x0c, 0xc7, 0xbf, 0x63, 0xf6, 0xe1, 0xda, 0x27, 0x4e, 0xde, 0xbf,
      0xe7, 0x6f, 0x65, 0xfb, 0xd5, 0x1a, 0xd2, 0xf1, 0x48, 0x98, 0xb9, 0x5b] ∧
    shaFinal (EVP_DigestInit SHASize.SHA512) [] = Except.ok [
      0xcf, 0x83, 0xe1, 0x35, 0x7e, 0xef, 0xb8, 0xbd, 0xf1, 0x54, 0x28, 0x50,
      0xd6, 0x6d, 0x80, 0x07, 0xd6, 0x20, 0xe4, 0x05, 0x0b, 0x57, 0x15, 0xdc,
      0x83, 0xf4, 0xa9, 0x21, 0xd3, 0x6c, 0xe9, 0xce, 0x47, 0xd0, 0xd1, 0x3c,
      0x5d, 0x85, 0xf2, 0xb0, 0xff, 0x83, 0x18, 0xd2, 0x87, 0x7e, 0xec, 0x2f,
      0x63, 0xb9, 0x31, 0xbd, 0x47, 0x41, 0x7a, 0x81, 0xa5, 0x38, 0x32, 0x7a,
      0xf9, 0x27, 0xda, 0x3e] := by
  refine ⟨?_, ?_, ?_⟩ <;> (rw [shaFinal_fresh]; exact congrArg Except.ok (by decide))

/-- Claim C5: an append or finalize call raises the shim's crypto error if
and only if the corresponding backend primitive reports a non-success status
(status different from 1), and finalize returns a digest exactly when both
the update of the final chunk and the backend's final step succeed — on
error no digest is returned. -/
theorem sha_error_iff_backend_failure {σ : Type} (B : EVPBackend σ) (ctx : σ) (d : List Nat) :
    ((∃ e, SHAWithOpenSSL.OnAppend B ctx d = Except.error e) ↔ (B.update ctx d).1 ≠ 1) ∧
    ((∃ e, SHAWithOpenSSL.OnFinal B ctx d = Except.error e) ↔
      ((B.update ctx d).1 ≠ 1 ∨ (B.final (B.update ctx d).2).1 ≠ 1)) ∧
    ((∃ out, SHAWithOpenSSL.OnFinal B ctx d = Except.ok out) ↔
      ((B.update ctx d).1 = 1 ∧ (B.final (B.update ctx d).2).1 = 1)) := by
  refine ⟨?_, ?_, ?_⟩
  · by_cases h1 : (B.update ctx d).1 = 1
    · simp [onAppend_ok_of_status B ctx d h1, h1]
    · simp [onAppend_error_of_status B ctx d h1, h1]
  · by_cases h1 : (B.update ctx d).1 = 1
    · by_cases h2 : (B.final (B.update ctx d).2).1 = 1
      · simp [onFinal_ok_of_status B ctx d h1 h2, h1, h2]
      · simp [onFinal_error_of_final B ctx d h1 h2, h1, h2]
    · simp [onFinal_error_of_update B ctx d h1, h1]
  · by_cases h1 : (B.update ctx d).1 = 1
    · by_cases h2 : (B.final (B.update ctx d).2).1 = 1
      · simp [onFinal_ok_of_status B ctx d h1 h2, h1, h2]
      · simp [onFinal_error_of_final B ctx d h1 h2, h1, h2]
    · simp [onFinal_error_of_update B ctx d h1, h1]

/-- Claim C6 (code bug): when `EVP_MD_CTX_new` succeeds and
`EVP_DigestInit_ex` fails, the constructor throws without freeing the
context and, the object being only partially constructed, its destructor
never runs: the acquired context is left live and never freed.  The same
happens to the provider handle when a `BCryptGetProperty` call fails inside
`AlgorithmProviderInstance`.  Successful construction, by contrast, leaks
nothing once the destructor has run. -/
theorem sha_constructor_leaks_on_partial_failure :
    (SHAWithOpenSSL.lifecycle true false).live = 1 ∧
    (SHAWithOpenSSL.lifecycle true false).freed = 0 ∧
    (AlgorithmProviderInstance.lifecycle true false true).live = 1 ∧
    (AlgorithmProviderInstance.lifecycle true true false).live = 1 ∧
    (SHAWithOpenSSL.lifecycle true true).live = 0 ∧
    (SHAWithOpenSSL.lifecycle false true).live = 0 ∧
    (AlgorithmProviderInstance.lifecycle true true true).live = 0 := by
  decide

/-- Claim C8: hashing is deterministic in its input alone — the same
sequence of append calls and the same final chunk on two fresh instances of
the same variant yield byte-for-byte identical outputs. -/
theorem sha_deterministic (alg : SHASize) (chunks : List (List Nat)) (fin : List Nat)
    (c1 c2 : EVPContext) (h1 : c1 = EVP_DigestInit alg) (h2 : c2 = EVP_DigestInit alg) :
    hashVia c1 chunks fin = hashVia c2 chunks fin := by
  subst h1; subst h2; rfl

/-- Witness for `sha_deterministic` on two fresh SHA-256 instances hashing
the single chunk "abc". -/
theorem sha_deterministic_witness :
    hashVia (EVP_DigestInit SHASize.SHA256) [[97, 98, 99]] [] =
      hashVia (EVP_DigestInit SHASize.SHA256) [[97, 98, 99]] [] :=
  sha_deterministic SHASize.SHA256 [[97, 98, 99]] []
    (EVP_DigestInit SHASize.SHA256) (EVP_DigestInit SHASize.SHA256) rfl rfl

/-- Claim C9: appending the empty byte sequence is an identity operation on
the instance state, and inserting it before a finalize (as finalize's
internal pre-append of an empty final chunk does) leaves the digest
unchanged. -/
theorem sha_empty_append_identity (ctx : EVPContext) (d : List Nat) :
    shaAppend ctx [] = Except.ok ctx ∧
    (shaAppend ctx [] >>= fun c => shaFinal c d) = shaFinal ctx d := by
  obtain ⟨alg, acc⟩ := ctx
  constructor
  · simp [shaAppend_eq_ok]
  · simp [shaAppend_eq_ok, Bind.bind, Except.bind]

/-- Append leaves `m_hashLength` unchanged in the BCrypt shim. -/
theorem bcOnAppend_hashLength {σ : Type} (B : BCryptBackend σ)
    (s s1 : SHAWithBCryptState σ) (d : List Nat)
    (h : SHAWithBCrypt.OnAppend B s d = Except.ok s1) :
    s1.m_hashLength = s.m_hashLength := by
  unfold SHAWithBCrypt.OnAppend at h
  by_cases hb : BCRYPT_SUCCESS (B.hashData s.m_hashHandle d).1 <;> simp [hb] at h
  subst h
  rfl

/-- A successful BCrypt finalize returns exactly `m_hashLength` bytes. -/
theorem bcOnFinal_length {σ : Type} (B : BCryptBackend σ)
    (s : SHAWithBCryptState σ) (d out : List Nat)
    (h : SHAWithBCrypt.OnFinal B s d = Except.ok out) :
    out.length = s.m_hashLength := by
  unfold SHAWithBCrypt.OnFinal at h
  cases hA : SHAWithBCrypt.OnAppend B s d with
  | error e => rw [hA] at h; cases h
  | ok s2 =>
    rw [hA] at h
    have h2 := bcOnAppend_hashLength B s s2 d hA
    by_cases hc :
        BCRYPT_SUCCESS (B.finishHash s2.m_hashHandle s2.m_hashLength).1 <;>
      simp [hc] at h
    subst h
    simp [h2]

/-- Claim C10: in the BCrypt backend, `m_hashLength` is set at construction
to the provider's queried hash length, is unchanged by append, and every
successful finalize returns exactly `m_hashLength` bytes. -/
theorem bcrypt_hash_length_invariant {σ : Type} (B : BCryptBackend σ)
    (prov : AlgorithmProviderInstance) (handle : σ)
    (s s1 : SHAWithBCryptState σ) (d1 d2 out : List Nat)
    (hA : SHAWithBCrypt.OnAppend B s d1 = Except.ok s1)
    (hF : SHAWithBCrypt.OnFinal B s1 d2 = Except.ok out) :
    (SHAWithBCrypt.construct prov handle).m_hashLength = prov.HashLength ∧
    s1.m_hashLength = s.m_hashLength ∧
    out.length = s1.m_hashLength :=
  ⟨rfl, bcOnAppend_hashLength B s s1 d1 hA, bcOnFinal_length B s1 d2 out hF⟩

/-- A trivial always-succeeding BCrypt backend over a unit handle type, used
to witness `bcrypt_hash_length_invariant` at a concrete input. -/
def trivialBCryptBackend : BCryptBackend Unit where
  hashData := fun _ _ => (0, ())
  finishHash := fun _ _ => (0, fun _ => 0)

/-- Witness for `bcrypt_hash_length_invariant` at a provider reporting hash
length 32, with the trivial backend. -/
theorem bcrypt_hash_length_invariant_witness :
    (SHAWithBCrypt.construct (AlgorithmProviderInstance.mk 7 16 32) ()).m_hashLength =
      (AlgorithmProviderInstance.mk 7 16 32).HashLength ∧
    (SHAWithBCryptState.mk 16 () 32).m_hashLength =
      (SHAWithBCryptState.mk 16 () 32).m_hashLength ∧
    ((List.range 32).map (fun _ => 0)).length =
      (SHAWithBCryptState.mk 16 () 32).m_hashLength :=
  bcrypt_hash_length_invariant trivialBCryptBackend (AlgorithmProviderInstance.mk 7 16 32) ()
    (SHAWithBCryptState.mk 16 () 32) (SHAWithBCryptState.mk 16 () 32) [] []
    ((List.range 32).map (fun _ => 0)) (by rfl) (by rfl)

end AzureKeyVaultSha
